import Mathlib

/-!
Shallow embedding of the VS_News Express/Mongoose backend.

Each route handler from `src/server/routes` is translated into a pure Lean
function from an environment (the configuration flags and the modelled
outcomes of the external SaaS calls: SendGrid, Gemini, puppeteer) and a
database state to an HTTP response paired with the new database state.
Mongo/Mongoose operations are modelled over plain lists:
  * `Document.find? (fun x => x.id == i)` models `Model.findById(i)`;
  * replacing the matching element models `doc.save()` / `findByIdAndUpdate`;
  * `MongooseArray.addToSet` is modelled by `addToSet` below (each value is
    appended only when not already present, one value at a time);
  * `$pull` removes every occurrence, modelled by `List.filter`.
-/

set_option maxRecDepth 8192

namespace VSNews

/-- A PDF binary as stored inline in the newsletter document. -/
structure PdfContent where
  data : List Nat
  contentType : String
deriving Repr, DecidableEq

/-- Model of `newsletter.model.js`: title, category, status, article refs, recipient
refs and the inline PDF. -/
structure Newsletter where
  id : Nat
  title : String
  category : String
  status : String
  articles : List Nat
  recipients : List Nat
  pdfContent : Option PdfContent
deriving Repr, DecidableEq

/-- The valid values of the `status` enum in `newsletter.model.js`. -/
def validStatuses : List String :=
  ["Not Sent", "pending", "approved", "sent", "declined"]

/-- Model of `user.model.js` (the fields the verified routes touch). -/
structure User where
  id : Nat
  name : String
  email : String
  userType : String
  categories : List String
deriving Repr, DecidableEq

/-- Model of `category.model.js`: a unique name and the list of admin user refs. -/
structure Category where
  id : Nat
  name : String
  admins : List Nat
deriving Repr, DecidableEq

/-- Model of `article.model.js` (the fields the delete route touches). -/
structure CuratedArticle where
  id : Nat
  savedBy : Nat
  title : String
deriving Repr, DecidableEq

/-- Model of `notification.model.js`. -/
structure Notification where
  user : Nat
  newsletter : Nat
  message : String
  isRead : Bool
deriving Repr, DecidableEq

/-- The document store.  `nextId` models Mongo's fresh `_id` generation for
newly inserted newsletters. -/
structure DB where
  newsletters : List Newsletter
  users : List User
  categories : List Category
  articles : List CuratedArticle
  notifications : List Notification
  nextId : Nat
deriving Repr, DecidableEq

/-- The possible responses of the modelled routes. -/
inductive HttpResp where
  | ok (body : String)
  | okPdf (bytes : List Nat)
  | okNewsletter (n : Newsletter)
  | okJsonNull
  | badRequest (msg : String)
  | notFound (msg : String)
  | serverError (msg : String)
deriving Repr, DecidableEq

/-- Mongoose `array.addToSet(...xs)`: values are processed left to right and
appended only when not already present in the (updated) array. -/
def addToSet (l : List Nat) (xs : List Nat) : List Nat :=
  xs.foldl (fun acc x => if x ∈ acc then acc else acc ++ [x]) l

/-- An article object as posted to `POST /newsletters/generate-and-save`;
only its `_id` is persisted (`articles.map(a => a._id)`). -/
structure GenArticle where
  _id : Nat
  title : String
  summary : String
deriving Repr, DecidableEq

/-- Environment of `POST /newsletters/:id/send`:  whether
`SENDGRID_API_KEY` is set, whether `sgMail.send` resolves, and whether
`Notification.insertMany` resolves. -/
structure SendEnv where
  sendgridConfigured : Bool
  emailSendOk : Bool
  notifInsertOk : Bool
deriving Repr, DecidableEq

/-- The email step of `POST /newsletters/:id/send` throws:  it is attempted
only when the API key is configured and some selected user exists, and it
throws when the message construction reads `newsletter.pdfContent.data` of a
missing PDF or when `sgMail.send` rejects. -/
def emailStepFails (env : SendEnv) (db : DB) (userIds : List Nat)
    (n : Newsletter) : Bool :=
  env.sendgridConfigured &&
    !(db.users.filter (fun u => userIds.contains u.id)).isEmpty &&
    (n.pdfContent.isNone || !env.emailSendOk)

/-- The mutation the send route performs on the loaded newsletter:
`newsletter.status = 'sent'; newsletter.recipients.addToSet(...userIds)`. -/
def sentUpdate (newsletter : Newsletter) (userIds : List Nat) : Newsletter :=
  { newsletter with
    status := "sent",
    recipients := addToSet newsletter.recipients userIds }

/-- The database state after the success path of `POST /newsletters/:id/send`:
the mutated newsletter is saved and then, best effort, one notification per
given user id is inserted — a failure of `insertMany` is caught and logged
and leaves the notifications unchanged. -/
def sendSuccessDB (env : SendEnv) (db : DB) (nid : Nat) (userIds : List Nat)
    (newsletter : Newsletter) : DB :=
  let db₁ : DB :=
    { db with newsletters :=
        db.newsletters.map (fun m =>
          if m.id == nid then sentUpdate newsletter userIds else m) }
  if env.notifInsertOk then
    { db₁ with notifications := db₁.notifications ++
        userIds.map (fun uid =>
          { user := uid, newsletter := newsletter.id,
            message := "You received the \"" ++ newsletter.title ++
              "\" newsletter.",
            isRead := false }) }
  else db₁

/-- Route `POST /newsletters/:id/send` (`newsletters.js`, lines 206-255). -/
def sendHandler (env : SendEnv) (db : DB) (nid : Nat) (userIds : List Nat) :
    HttpResp × DB :=
  if userIds = [] then
    (.badRequest "No recipients selected.", db)
  else
    match db.newsletters.find? (fun n => n.id == nid) with
    | none => (.notFound "Newsletter not found.", db)
    | some newsletter =>
      if emailStepFails env db userIds newsletter then
        (.serverError "Failed to send newsletter due to a server error.", db)
      else
        (.ok ("Newsletter successfully sent to " ++
            toString userIds.length ++ " user(s)."),
          sendSuccessDB env db nid userIds newsletter)

/-- Environment of `POST /newsletters/generate-and-save`: whether
`GEMINI_API_KEY` is set, the modelled outcomes of the Gemini call, of the
puppeteer PDF rendering and of the notification save, plus the text and the
bytes those external calls produce. -/
structure GenEnv where
  genAIConfigured : Bool
  aiOk : Bool
  aiText : String
  pdfOk : Bool
  pdfBytes : List Nat
  notifSaveOk : Bool
deriving Repr, DecidableEq

/-- Models `.replace(/^```html\n/, '').replace(/\n```$/, '')` on the AI response,
modelled on the character sequence of the string. -/
def stripCodeFences (s : String) : String :=
  let l := s.data
  let l₁ := if ("```html\n".data).isPrefixOf l then l.drop 8 else l
  let l₂ := if ("\n```".data).isSuffixOf l₁ then l₁.take (l₁.length - 4) else l₁
  String.mk l₂

/-- The Newsletter record persisted by the success path of
`POST /newsletters/generate-and-save` (`new Newsletter({...})`, lines
134-143 of `newsletters.js`). -/
def generatedNewsletter (env : GenEnv) (db : DB)
    (articles : Option (List GenArticle)) (title category : String) :
    Newsletter :=
  { id := db.nextId, title := title, category := category,
    status := "Not Sent",
    articles := (articles.getD []).map (fun a => a._id),
    recipients := [],
    pdfContent := some { data := env.pdfBytes,
                         contentType := "application/pdf" } }

/-- The database state after the full success path of
`POST /newsletters/generate-and-save`: the new newsletter is saved, then one
notification for the requesting admin is saved. -/
def generateSuccessDB (env : GenEnv) (db : DB) (caller : Nat)
    (articles : Option (List GenArticle)) (title category : String) : DB :=
  { db with
    newsletters := db.newsletters ++
      [generatedNewsletter env db articles title category],
    notifications := db.notifications ++
      [{ user := caller, newsletter := db.nextId,
         message := "New newsletter \"" ++ title ++
           "\" generated. Check it out in \"Newsletter History\" to share and view.",
         isRead := false }],
    nextId := db.nextId + 1 }

/-- Route `POST /newsletters/generate-and-save` (`newsletters.js`, lines 99-164).
`articles = none` models an absent `articles` field; an absent `title` or
`category` is modelled by `""` (both are falsy in the source's check). -/
def generateHandler (env : GenEnv) (db : DB) (caller : Nat)
    (articles : Option (List GenArticle)) (title category : String) :
    HttpResp × DB :=
  if !env.genAIConfigured then
    (.serverError "Gemini API client is not initialized.", db)
  else if articles.getD [] = [] || title = "" || category = "" then
    (.badRequest "Title, category, and articles are required.", db)
  else if !env.aiOk then
    (.serverError "Failed to generate and save PDF. Check server logs for details.", db)
  else
    let generatedHtml := stripCodeFences env.aiText
    if generatedHtml.length < 100 then
      (.serverError "Failed to generate and save PDF. Check server logs for details.", db)
    else if !env.pdfOk then
      (.serverError "Failed to generate and save PDF. Check server logs for details.", db)
    else
      if !env.notifSaveOk then
        -- the notification save throws after the newsletter was persisted:
        -- the outer catch answers 500, no cleanup of the new record
        (.serverError "Failed to generate and save PDF. Check server logs for details.",
          { db with
            newsletters := db.newsletters ++
              [generatedNewsletter env db articles title category],
            nextId := db.nextId + 1 })
      else
        (.okPdf env.pdfBytes,
          generateSuccessDB env db caller articles title category)

/-- Route `GET /newsletters/:id/download` (`newsletters.js`, lines 167-179). -/
def downloadHandler (db : DB) (nid : Nat) : HttpResp :=
  match db.newsletters.find? (fun n => n.id == nid) with
  | none => .notFound "PDF not found."
  | some n =>
    match n.pdfContent with
    | none => .notFound "PDF not found."
    | some pdf => .okPdf pdf.data

/-- Route `PATCH /newsletters/:id/status` (`newsletters.js`, lines 182-190).
`findByIdAndUpdate` runs with its default options, so update validators —
including the `status` enum of the schema — are not run and the given value
is written verbatim; with `new: true` the updated document is returned
(`null` when the id matches nothing). -/
def patchStatusHandler (db : DB) (nid : Nat) (status : String) :
    HttpResp × DB :=
  match db.newsletters.find? (fun n => n.id == nid) with
  | none => (.okJsonNull, db)
  | some n =>
    let n' : Newsletter := { n with status := status }
    (.okNewsletter n',
      { db with newsletters :=
          db.newsletters.map (fun m => if m.id == nid then n' else m) })

/-- Route `DELETE /articles/:id` (`articles.js`, lines 63-77):
`findOneAndDelete({ _id, savedBy: req.user })` deletes the matching document
or answers 404 when none matches. -/
def deleteArticleHandler (db : DB) (caller : Nat) (aid : Nat) :
    HttpResp × DB :=
  match db.articles.find? (fun a => a.id == aid && a.savedBy == caller) with
  | none =>
    (.notFound "Article not found or you do not have permission to delete it.",
      db)
  | some _ =>
    (.ok "Article deleted successfully.",
      { db with articles :=
          db.articles.eraseP (fun a => a.id == aid && a.savedBy == caller) })

/-- Route `DELETE /categories/:id` (`categories.js`, lines 33-48):  pull the
category's name from the `categories` list of every user listed in the
category's `admins` array, then delete the category record. -/
def deleteCategoryHandler (db : DB) (cid : Nat) : HttpResp × DB :=
  match db.categories.find? (fun c => c.id == cid) with
  | none => (.notFound "Category not found.", db)
  | some c =>
    let users' := db.users.map (fun u =>
      if c.admins.contains u.id then
        { u with categories := u.categories.filter (fun s => s != c.name) }
      else u)
    (.ok "Category removed successfully.",
      { db with
        users := users',
        categories := db.categories.filter (fun d => d.id != cid) })

/-- Environment of `POST /users/send-newsletter-to-self`. -/
structure SelfSendEnv where
  sendgridConfigured : Bool
  fromEmailConfigured : Bool
  emailSendOk : Bool
  notifSaveOk : Bool
deriving Repr, DecidableEq

/-- The database state after the success path of
`POST /users/send-newsletter-to-self`: the caller's id is added to the
newsletter's recipients with set semantics and one notification for the
caller is saved. -/
def selfSendSuccessDB (db : DB) (user : User) (nid : Nat)
    (newsletter : Newsletter) : DB :=
  { db with
    newsletters :=
      db.newsletters.map (fun m =>
        if m.id == nid then
          { newsletter with
            recipients := addToSet newsletter.recipients [user.id] }
        else m),
    notifications := db.notifications ++
      [{ user := user.id, newsletter := newsletter.id,
         message := "You sent the \"" ++ newsletter.title ++
           "\" newsletter to your email.",
         isRead := false }] }

/-- Route `POST /users/send-newsletter-to-self` (`users.js`, lines 102-158).
`newsletter.save()` validates the whole document (mongoose's default), so a
stored status outside the schema enum makes the save throw, caught by the
outer handler as a 500. -/
def selfSendHandler (env : SelfSendEnv) (db : DB) (caller : Nat)
    (newsletterId : Option Nat) : HttpResp × DB :=
  if !env.sendgridConfigured || !env.fromEmailConfigured then
    (.serverError "Email service is not configured on the server.", db)
  else
    match newsletterId with
    | none => (.badRequest "Newsletter ID is required.", db)
    | some nid =>
      match db.users.find? (fun u => u.id == caller) with
      | none => (.notFound "User not found.", db)
      | some user =>
        match db.newsletters.find? (fun n => n.id == nid) with
        | none => (.notFound "Newsletter or its PDF content not found.", db)
        | some newsletter =>
          match newsletter.pdfContent with
          | none => (.notFound "Newsletter or its PDF content not found.", db)
          | some _ =>
            if !env.emailSendOk then
              (.serverError "Failed to send email due to a server error.", db)
            else if !(validStatuses.contains newsletter.status) then
              (.serverError "Failed to send email due to a server error.", db)
            else if !env.notifSaveOk then
              (.serverError "Failed to send email due to a server error.",
                { db with newsletters :=
                    db.newsletters.map (fun m =>
                      if m.id == nid then
                        { newsletter with
                          recipients :=
                            addToSet newsletter.recipients [user.id] }
                      else m) })
            else
              (.ok ("Newsletter successfully sent to " ++ user.email ++ "."),
                selfSendSuccessDB db user nid newsletter)

/-! ### Lemmas about `addToSet` -/

theorem addToSet_cons (l : List Nat) (x : Nat) (xs : List Nat) :
    addToSet l (x :: xs) = addToSet (if x ∈ l then l else l ++ [x]) xs := rfl

theorem mem_addToSet (l xs : List Nat) (y : Nat) :
    y ∈ addToSet l xs ↔ y ∈ l ∨ y ∈ xs := by
  induction xs generalizing l with
  | nil => simp [addToSet]
  | cons x xs ih =>
    rw [addToSet_cons, ih]
    by_cases hx : x ∈ l
    · rw [if_pos hx]
      constructor
      · rintro (h | h)
        · exact Or.inl h
        · exact Or.inr (List.mem_cons_of_mem _ h)
      · rintro (h | h)
        · exact Or.inl h
        · rcases List.mem_cons.mp h with rfl | h
          · exact Or.inl hx
          · exact Or.inr h
    · rw [if_neg hx]
      simp only [List.mem_append, List.mem_singleton, List.mem_cons]
      tauto

theorem addToSet_nodup (l xs : List Nat) (h : l.Nodup) :
    (addToSet l xs).Nodup := by
  induction xs generalizing l with
  | nil => exact h
  | cons x xs ih =>
    rw [addToSet_cons]
    by_cases hx : x ∈ l
    · rw [if_pos hx]; exact ih l h
    · rw [if_neg hx]
      exact ih _ (by simp [List.nodup_append, h, hx])

theorem addToSet_eq_self (l xs : List Nat) (h : ∀ x ∈ xs, x ∈ l) :
    addToSet l xs = l := by
  induction xs with
  | nil => rfl
  | cons x xs ih =>
    rw [addToSet_cons, if_pos (h x (List.mem_cons_self x xs))]
    exact ih fun y hy => h y (List.mem_cons_of_mem _ hy)

/-! ### Lemmas about the list model of the document store -/

theorem find?_cons_pos' {α : Type} (p : α → Bool) (a : α) (l : List α)
    (h : p a = true) : (a :: l).find? p = some a := by
  simp [List.find?_cons, h]

theorem find?_cons_neg' {α : Type} (p : α → Bool) (a : α) (l : List α)
    (h : p a = false) : (a :: l).find? p = l.find? p := by
  simp [List.find?_cons, h]

theorem find?_update_eq (l : List Newsletter) (nid : Nat) (n' : Newsletter)
    (hid : n'.id = nid)
    (hsome : (l.find? (fun m => m.id == nid)).isSome) :
    (l.map (fun m => if m.id == nid then n' else m)).find?
      (fun m => m.id == nid) = some n' := by
  induction l with
  | nil => simp at hsome
  | cons a t ih =>
    by_cases ha : (a.id == nid) = true
    · rw [List.map_cons, if_pos ha,
        find?_cons_pos' (fun m => m.id == nid) n' _ (by simp [hid])]
    · have ha' : (a.id == nid) = false := by simpa using ha
      rw [List.map_cons, if_neg ha,
        find?_cons_neg' (fun m => m.id == nid) a _ ha']
      apply ih
      rwa [find?_cons_neg' (fun m => m.id == nid) a t ha'] at hsome

theorem find?_newsletter_id (l : List Newsletter) (nid : Nat) (n : Newsletter)
    (h : l.find? (fun m => m.id == nid) = some n) : n.id = nid := by
  have := List.find?_some h
  simpa using this

theorem filter_contains_mono (users : List User) (ids₂ ids : List Nat)
    (hsub : ∀ x ∈ ids₂, x ∈ ids)
    (h : users.filter (fun u => ids.contains u.id) = []) :
    users.filter (fun u => ids₂.contains u.id) = [] := by
  rw [List.filter_eq_nil_iff] at h ⊢
  intro u hu hcon
  exact h u hu (by
    have : u.id ∈ ids₂ := by simpa [List.contains, List.elem_iff] using hcon
    simp [List.contains, List.elem_iff]
    exact hsub _ this)

/-! ### Characterization of the send route -/

theorem sendSuccessDB_newsletters (env : SendEnv) (db : DB) (nid : Nat)
    (ids : List Nat) (n : Newsletter) :
    (sendSuccessDB env db nid ids n).newsletters =
      db.newsletters.map (fun m =>
        if m.id == nid then sentUpdate n ids else m) := by
  unfold sendSuccessDB
  split <;> rfl

theorem sendSuccessDB_users (env : SendEnv) (db : DB) (nid : Nat)
    (ids : List Nat) (n : Newsletter) :
    (sendSuccessDB env db nid ids n).users = db.users := by
  unfold sendSuccessDB
  split <;> rfl

theorem sendHandler_found (env : SendEnv) (db : DB) (nid : Nat)
    (ids : List Nat) (n : Newsletter) (hids : ids ≠ [])
    (hfind : db.newsletters.find? (fun x => x.id == nid) = some n) :
    sendHandler env db nid ids =
      if emailStepFails env db ids n then
        (.serverError "Failed to send newsletter due to a server error.", db)
      else
        (.ok ("Newsletter successfully sent to " ++
            toString ids.length ++ " user(s)."),
          sendSuccessDB env db nid ids n) := by
  unfold sendHandler
  rw [if_neg hids, hfind]

theorem emailStepFails_false_mono (env : SendEnv) (db db' : DB)
    (ids ids₂ : List Nat) (n n' : Newsletter)
    (husers : db'.users = db.users)
    (hpdf : n'.pdfContent = n.pdfContent)
    (hsub : ∀ x ∈ ids₂, x ∈ ids)
    (h : emailStepFails env db ids n = false) :
    emailStepFails env db' ids₂ n' = false := by
  unfold emailStepFails at h ⊢
  rw [husers, hpdf]
  by_cases hsg : env.sendgridConfigured = true
  · by_cases hf2 : db.users.filter (fun u => ids₂.contains u.id) = []
    · have hie : (db.users.filter (fun u => ids₂.contains u.id)).isEmpty
          = true := by
        rw [List.isEmpty_iff]; exact hf2
      rw [hie]
      simp
    · have hf1 : ¬db.users.filter (fun u => ids.contains u.id) = [] :=
        fun hc => hf2 (filter_contains_mono _ _ _ hsub hc)
      have hie1 : (db.users.filter (fun u => ids.contains u.id)).isEmpty
          = false := by
        simpa [List.isEmpty_iff] using hf1
      have hie2 : (db.users.filter (fun u => ids₂.contains u.id)).isEmpty
          = false := by
        simpa [List.isEmpty_iff] using hf2
      simp only [hsg, hie1, Bool.not_false, Bool.true_and] at h
      simp only [hsg, hie2, Bool.not_false, Bool.true_and]
      exact h
  · have hsg' : env.sendgridConfigured = false := by simpa using hsg
    simp [hsg']

/-! ### Sample data for the concrete witnesses and counterexamples -/

def pdfA : PdfContent := { data := [1, 2, 3], contentType := "application/pdf" }

def nlA : Newsletter :=
  { id := 0, title := "Weekly", category := "java", status := "Not Sent",
    articles := [], recipients := [5], pdfContent := some pdfA }

def userA : User :=
  { id := 5, name := "Uma", email := "uma@example.com", userType := "user",
    categories := [] }

def dbA : DB :=
  { newsletters := [nlA], users := [userA], categories := [], articles := [],
    notifications := [], nextId := 1 }

def envNoMail : SendEnv :=
  { sendgridConfigured := false, emailSendOk := true, notifInsertOk := true }

/-! ### Claim theorems -/

/-- C1: after a successful `POST /newsletters/:id/send`, the newsletter's
status equals `"sent"` and its recipient list is the duplicate-free set
union of the previous recipients and the given recipient ids; a second send
with overlapping or identical ids adds no duplicate recipient and still
reports success. -/
theorem send_marks_sent_and_unions_recipients
    (env : SendEnv) (db : DB) (nid : Nat) (ids : List Nat) (m : String)
    (n : Newsletter)
    (hfind : db.newsletters.find? (fun x => x.id == nid) = some n)
    (hnodup : n.recipients.Nodup)
    (hok : (sendHandler env db nid ids).1 = HttpResp.ok m) :
    ∃ n', ((sendHandler env db nid ids).2).newsletters.find?
        (fun x => x.id == nid) = some n' ∧
      n'.status = "sent" ∧
      n'.recipients.Nodup ∧
      (∀ x, x ∈ n'.recipients ↔ x ∈ n.recipients ∨ x ∈ ids) ∧
      (∀ ids₂, ids₂ ≠ [] → (∀ x ∈ ids₂, x ∈ ids) →
        ∃ m₂ n'',
          (sendHandler env ((sendHandler env db nid ids).2) nid ids₂).1 =
            HttpResp.ok m₂ ∧
          ((sendHandler env ((sendHandler env db nid ids).2) nid
              ids₂).2).newsletters.find? (fun x => x.id == nid) = some n'' ∧
          n''.recipients = n'.recipients) := by
  by_cases hids : ids = []
  · rw [sendHandler, if_pos hids] at hok
    exact absurd hok (by simp)
  rw [sendHandler_found env db nid ids n hids hfind] at hok
  by_cases hfail : emailStepFails env db ids n = true
  · rw [if_pos hfail] at hok
    exact absurd hok (by simp)
  have hfail' : emailStepFails env db ids n = false := by simpa using hfail
  rw [sendHandler_found env db nid ids n hids hfind, if_neg hfail]
  have hnid : n.id = nid := find?_newsletter_id _ _ _ hfind
  have hfind' : (sendSuccessDB env db nid ids n).newsletters.find?
      (fun x => x.id == nid) = some (sentUpdate n ids) := by
    rw [sendSuccessDB_newsletters]
    exact find?_update_eq _ _ _ hnid (by rw [hfind]; rfl)
  refine ⟨sentUpdate n ids, hfind', rfl, addToSet_nodup _ _ hnodup,
    fun x => mem_addToSet _ _ _, ?_⟩
  intro ids₂ hne2 hsub
  have hfail₂ : emailStepFails env (sendSuccessDB env db nid ids n) ids₂
      (sentUpdate n ids) = false :=
    emailStepFails_false_mono env db _ ids ids₂ n _
      (sendSuccessDB_users _ _ _ _ _) rfl hsub hfail'
  rw [sendHandler_found env _ nid ids₂ (sentUpdate n ids) hne2 hfind',
    if_neg (by simp [hfail₂])]
  refine ⟨_, sentUpdate (sentUpdate n ids) ids₂, rfl, ?_, ?_⟩
  · rw [sendSuccessDB_newsletters]
    exact find?_update_eq _ _ _ hnid (by rw [hfind']; rfl)
  · show addToSet (addToSet n.recipients ids) ids₂ = addToSet n.recipients ids
    exact addToSet_eq_self _ _ fun x hx =>
      (mem_addToSet _ _ _).mpr (Or.inr (hsub x hx))

/-- Witness for C1 at a concrete input: newsletter 0 with previous recipient
5, sent to users 5 and 7 with no email credential configured. -/
theorem send_marks_sent_and_unions_recipients_witness :
    (dbA.newsletters.find? (fun x => x.id == 0) = some nlA ∧
      nlA.recipients.Nodup ∧
      (sendHandler envNoMail dbA 0 [5, 7]).1 =
        HttpResp.ok "Newsletter successfully sent to 2 user(s).") ∧
    (∃ n', ((sendHandler envNoMail dbA 0 [5, 7]).2).newsletters.find?
        (fun x => x.id == 0) = some n' ∧
      n'.status = "sent" ∧
      n'.recipients.Nodup ∧
      (∀ x, x ∈ n'.recipients ↔ x ∈ nlA.recipients ∨ x ∈ [5, 7]) ∧
      (∀ ids₂, ids₂ ≠ [] → (∀ x ∈ ids₂, x ∈ [5, 7]) →
        ∃ m₂ n'',
          (sendHandler envNoMail ((sendHandler envNoMail dbA 0 [5, 7]).2) 0
              ids₂).1 = HttpResp.ok m₂ ∧
          ((sendHandler envNoMail ((sendHandler envNoMail dbA 0 [5, 7]).2) 0
              ids₂).2).newsletters.find? (fun x => x.id == 0) = some n'' ∧
          n''.recipients = n'.recipients)) :=
  ⟨⟨rfl, by decide, rfl⟩,
    send_marks_sent_and_unions_recipients envNoMail dbA 0 [5, 7]
      "Newsletter successfully sent to 2 user(s)." nlA rfl (by decide) rfl⟩

def envMailFail : SendEnv :=
  { sendgridConfigured := true, emailSendOk := false, notifInsertOk := true }

/-- C3 counterexample: with SendGrid configured and `sgMail.send` rejecting,
the send route answers 500 and the newsletter keeps its old status and
recipients — the status/recipient mutation does NOT happen regardless of the
email step's outcome. -/
theorem send_mutation_not_regardless_of_email_counterexample :
    (sendHandler envMailFail dbA 0 [5]).1 =
      HttpResp.serverError "Failed to send newsletter due to a server error." ∧
    (sendHandler envMailFail dbA 0 [5]).2 = dbA ∧
    dbA.newsletters.find? (fun x => x.id == 0) = some nlA ∧
    nlA.status ≠ "sent" := by
  refine ⟨rfl, rfl, rfl, ?_⟩
  decide

/-- C3 (amended): for every existing newsletter and non-empty recipient
list, the status/recipient mutation happens whenever the email step does not
throw — in particular whenever no email credential is configured, so the
mutation is independent of the configuration — but when the email send
throws, the route answers 500 and the database is left unchanged. -/
theorem send_mutation_iff_email_step_ok
    (env : SendEnv) (db : DB) (nid : Nat) (ids : List Nat) (n : Newsletter)
    (hids : ids ≠ [])
    (hfind : db.newsletters.find? (fun x => x.id == nid) = some n) :
    (emailStepFails env db ids n = false →
      (sendHandler env db nid ids).1 =
        HttpResp.ok ("Newsletter successfully sent to " ++
          toString ids.length ++ " user(s).") ∧
      ((sendHandler env db nid ids).2).newsletters.find?
        (fun x => x.id == nid) = some (sentUpdate n ids) ∧
      (sentUpdate n ids).status = "sent" ∧
      (∀ x, x ∈ (sentUpdate n ids).recipients ↔
        x ∈ n.recipients ∨ x ∈ ids)) ∧
    (env.sendgridConfigured = false → emailStepFails env db ids n = false) ∧
    (emailStepFails env db ids n = true →
      (sendHandler env db nid ids).1 =
        HttpResp.serverError "Failed to send newsletter due to a server error." ∧
      (sendHandler env db nid ids).2 = db) := by
  refine ⟨?_, ?_, ?_⟩
  · intro hfail
    rw [sendHandler_found env db nid ids n hids hfind, if_neg (by simp [hfail])]
    refine ⟨rfl, ?_, rfl, fun x => mem_addToSet _ _ _⟩
    rw [sendSuccessDB_newsletters]
    have hnid : n.id = nid := find?_newsletter_id _ _ _ hfind
    exact find?_update_eq _ _ _ hnid (by rw [hfind]; rfl)
  · intro hsg
    simp [emailStepFails, hsg]
  · intro hfail
    rw [sendHandler_found env db nid ids n hids hfind, if_pos hfail]
    exact ⟨rfl, rfl⟩

/-- Witness for the amended C3 at a concrete input. -/
theorem send_mutation_iff_email_step_ok_witness :
    (([5] : List Nat) ≠ [] ∧
      dbA.newsletters.find? (fun x => x.id == 0) = some nlA) ∧
    ((emailStepFails envNoMail dbA [5] nlA = false →
      (sendHandler envNoMail dbA 0 [5]).1 =
        HttpResp.ok ("Newsletter successfully sent to " ++
          toString (5 :: List.nil).length ++ " user(s).") ∧
      ((sendHandler envNoMail dbA 0 [5]).2).newsletters.find?
        (fun x => x.id == 0) = some (sentUpdate nlA [5]) ∧
      (sentUpdate nlA [5]).status = "sent" ∧
      (∀ x, x ∈ (sentUpdate nlA [5]).recipients ↔
        x ∈ nlA.recipients ∨ x ∈ [5])) ∧
    (envNoMail.sendgridConfigured = false →
      emailStepFails envNoMail dbA [5] nlA = false) ∧
    (emailStepFails envNoMail dbA [5] nlA = true →
      (sendHandler envNoMail dbA 0 [5]).1 =
        HttpResp.serverError "Failed to send newsletter due to a server error." ∧
      (sendHandler envNoMail dbA 0 [5]).2 = dbA)) :=
  ⟨⟨by decide, rfl⟩,
    send_mutation_iff_email_step_ok envNoMail dbA 0 [5] nlA (by decide) rfl⟩

/-- C4: neither the response nor the stored newsletters of
`POST /newsletters/:id/send` depend on whether the per-recipient
notification insert succeeds: a notification-creation failure is caught and
logged, and an otherwise successful send still answers the same success
response. -/
theorem send_notification_failure_does_not_fail_request
    (env : SendEnv) (db : DB) (nid : Nat) (ids : List Nat) (b : Bool) :
    (sendHandler { env with notifInsertOk := b } db nid ids).1 =
      (sendHandler env db nid ids).1 ∧
    ((sendHandler { env with notifInsertOk := b } db nid ids).2).newsletters =
      ((sendHandler env db nid ids).2).newsletters := by
  by_cases hids : ids = []
  · simp [sendHandler, if_pos hids]
  · cases hfind : db.newsletters.find? (fun x => x.id == nid) with
    | none => simp [sendHandler, if_neg hids, hfind]
    | some n =>
      have henv : emailStepFails { env with notifInsertOk := b } db ids n =
          emailStepFails env db ids n := rfl
      by_cases hfail : emailStepFails env db ids n = true
      · simp [sendHandler, if_neg hids, hfind, henv, hfail]
      · have hfail' : emailStepFails env db ids n = false := by
          simpa using hfail
        simp [sendHandler, if_neg hids, hfind, henv, hfail',
          sendSuccessDB_newsletters]

/-- A generate request that answered 200 with PDF bytes took the full
success path: the returned bytes are the rendered PDF and the database is
the success state. -/
theorem generateHandler_ok_inv (env : GenEnv) (db : DB) (caller : Nat)
    (articles : Option (List GenArticle)) (title category : String)
    (bs : List Nat)
    (hok : (generateHandler env db caller articles title category).1 =
      HttpResp.okPdf bs) :
    bs = env.pdfBytes ∧
    generateHandler env db caller articles title category =
      (HttpResp.okPdf env.pdfBytes,
        generateSuccessDB env db caller articles title category) := by
  simp only [generateHandler] at hok ⊢
  split at hok
  · simp at hok
  · split at hok
    · simp at hok
    · split at hok
      · simp at hok
      · split at hok
        · simp at hok
        · split at hok
          · simp at hok
          · split at hok
            · simp at hok
            · simp_all

theorem find?_append_fresh (l : List Newsletter) (n : Newsletter)
    (h : ∀ m ∈ l, (m.id == n.id) = false) :
    (l ++ [n]).find? (fun x => x.id == n.id) = some n := by
  induction l with
  | nil => simp [List.find?]
  | cons a t ih =>
    rw [List.cons_append,
      find?_cons_neg' (fun x => x.id == n.id) a _ (h a (List.mem_cons_self a t))]
    exact ih fun m hm => h m (List.mem_cons_of_mem _ hm)

/-! ### Sample data for the generate pipeline -/

def htmlA : String := String.mk (List.replicate 120 'a')

def envGenA : GenEnv :=
  { genAIConfigured := true, aiOk := true, aiText := htmlA, pdfOk := true,
    pdfBytes := [9, 8, 7], notifSaveOk := true }

def envNoAI : GenEnv :=
  { genAIConfigured := false, aiOk := true, aiText := htmlA, pdfOk := true,
    pdfBytes := [9, 8, 7], notifSaveOk := true }

def artA : GenArticle := { _id := 3, title := "A", summary := "S" }

/-- C2 counterexample: with the Gemini client not initialized, a generate
request with an empty article list is answered 500, not 400 (though no
record is created either way). -/
theorem generate_empty_articles_400_counterexample :
    (generateHandler envNoAI dbA 5 (some []) "T" "java").1 =
      HttpResp.serverError "Gemini API client is not initialized." ∧
    (generateHandler envNoAI dbA 5 (some []) "T" "java").1 ≠
      HttpResp.badRequest "Title, category, and articles are required." ∧
    ((generateHandler envNoAI dbA 5 (some []) "T" "java").2).newsletters =
      dbA.newsletters := by
  refine ⟨rfl, ?_, rfl⟩
  decide

/-- C2 (amended): a generate request whose article list is empty or absent
never creates a Newsletter record, and is answered 400 whenever the Gemini
client is initialized (with an uninitialized client the route answers 500
before validating the body). -/
theorem generate_empty_articles_no_record
    (env : GenEnv) (db : DB) (caller : Nat)
    (articles : Option (List GenArticle)) (title category : String)
    (hempty : articles.getD [] = []) :
    (env.genAIConfigured = true →
      (generateHandler env db caller articles title category).1 =
        HttpResp.badRequest "Title, category, and articles are required.") ∧
    ((generateHandler env db caller articles title category).2).newsletters =
      db.newsletters := by
  cases hcfg : env.genAIConfigured with
  | false =>
    constructor
    · intro h
      exact Bool.noConfusion h
    · simp [generateHandler, hcfg]
  | true =>
    constructor
    · intro _
      simp [generateHandler, hcfg, hempty]
    · simp [generateHandler, hcfg, hempty]

/-- Witness for the amended C2: an initialized Gemini client and an absent
article list. -/
theorem generate_empty_articles_no_record_witness :
    ((none : Option (List GenArticle)).getD [] = [] ∧
      envGenA.genAIConfigured = true) ∧
    ((envGenA.genAIConfigured = true →
      (generateHandler envGenA dbA 5 none "T" "java").1 =
        HttpResp.badRequest "Title, category, and articles are required.") ∧
    ((generateHandler envGenA dbA 5 none "T" "java").2).newsletters =
      dbA.newsletters) :=
  ⟨⟨rfl, rfl⟩,
    generate_empty_articles_no_record envGenA dbA 5 none "T" "java" rfl⟩

def nlGenA : Newsletter :=
  { id := 1, title := "T", category := "java", status := "Not Sent",
    articles := [3], recipients := [],
    pdfContent := some { data := [9, 8, 7], contentType := "application/pdf" } }

/-- C9 counterexample: a successful generate stores initial status
`"Not Sent"` (capitalized, as in the schema enum), which is not the claimed
string `"not sent"`. -/
theorem generate_initial_status_counterexample :
    (generateHandler envGenA dbA 5 (some [artA]) "T" "java").1 =
      HttpResp.okPdf [9, 8, 7] ∧
    ((generateHandler envGenA dbA 5 (some [artA]) "T" "java").2).newsletters =
      dbA.newsletters ++ [nlGenA] ∧
    nlGenA.status = "Not Sent" ∧
    nlGenA.status ≠ "not sent" := by
  refine ⟨rfl, rfl, rfl, ?_⟩
  decide

/-- C9 (amended): every successful generate appends exactly one Newsletter
record carrying the referenced article ids, the title, the category, the
initial status `"Not Sent"`, and the PDF bytes with their content type
inline. -/
theorem generate_persists_record
    (env : GenEnv) (db : DB) (caller : Nat)
    (articles : Option (List GenArticle)) (title category : String)
    (bs : List Nat)
    (hok : (generateHandler env db caller articles title category).1 =
      HttpResp.okPdf bs) :
    ((generateHandler env db caller articles title category).2).newsletters =
      db.newsletters ++
        [{ id := db.nextId, title := title, category := category,
           status := "Not Sent",
           articles := (articles.getD []).map (fun a => a._id),
           recipients := [],
           pdfContent := some { data := env.pdfBytes,
                                contentType := "application/pdf" } }] := by
  rcases generateHandler_ok_inv env db caller articles title category bs hok
    with ⟨-, heq⟩
  rw [heq]
  rfl

/-- Witness for the amended C9 at a concrete successful generate. -/
theorem generate_persists_record_witness :
    ((generateHandler envGenA dbA 5 (some [artA]) "T" "java").1 =
      HttpResp.okPdf [9, 8, 7]) ∧
    ((generateHandler envGenA dbA 5 (some [artA]) "T" "java").2).newsletters =
      dbA.newsletters ++
        [{ id := dbA.nextId, title := "T", category := "java",
           status := "Not Sent",
           articles := ((some [artA]).getD []).map (fun a => a._id),
           recipients := [],
           pdfContent := some { data := envGenA.pdfBytes,
                                contentType := "application/pdf" } }] :=
  ⟨rfl,
    generate_persists_record envGenA dbA 5 (some [artA]) "T" "java"
      [9, 8, 7] rfl⟩

/-- C6: the PDF bytes stored by a successful generate are exactly what a
subsequent `GET /newsletters/:id/download` of the new record returns — the
store-then-download round trip is the identity on the PDF bytes. -/
theorem generate_download_roundtrip
    (env : GenEnv) (db : DB) (caller : Nat)
    (articles : Option (List GenArticle)) (title category : String)
    (bs : List Nat)
    (hfresh : ∀ m ∈ db.newsletters, (m.id == db.nextId) = false)
    (hok : (generateHandler env db caller articles title category).1 =
      HttpResp.okPdf bs) :
    ∃ n,
      ((generateHandler env db caller articles title
          category).2).newsletters.find? (fun x => x.id == db.nextId) =
        some n ∧
      n.pdfContent = some { data := env.pdfBytes,
                            contentType := "application/pdf" } ∧
      downloadHandler
          ((generateHandler env db caller articles title category).2)
          db.nextId = HttpResp.okPdf env.pdfBytes ∧
      bs = env.pdfBytes := by
  rcases generateHandler_ok_inv env db caller articles title category bs hok
    with ⟨hbs, heq⟩
  have heq2 : (generateHandler env db caller articles title category).2 =
      generateSuccessDB env db caller articles title category := by
    rw [heq]
  have hns : (generateSuccessDB env db caller articles title
      category).newsletters =
      db.newsletters ++ [generatedNewsletter env db articles title category] :=
    rfl
  have hf : (generateSuccessDB env db caller articles title
      category).newsletters.find? (fun x => x.id == db.nextId) =
      some (generatedNewsletter env db articles title category) := by
    rw [hns]
    exact find?_append_fresh db.newsletters
      (generatedNewsletter env db articles title category) hfresh
  refine ⟨generatedNewsletter env db articles title category, ?_, rfl, ?_, hbs⟩
  · rw [heq2]
    exact hf
  · rw [heq2]
    unfold downloadHandler
    rw [hf]
    rfl

/-- Witness for C6 at a concrete successful generate. -/
theorem generate_download_roundtrip_witness :
    ((∀ m ∈ dbA.newsletters, (m.id == dbA.nextId) = false) ∧
      (generateHandler envGenA dbA 5 (some [artA]) "T" "java").1 =
        HttpResp.okPdf [9, 8, 7]) ∧
    (∃ n,
      ((generateHandler envGenA dbA 5 (some [artA]) "T"
          "java").2).newsletters.find? (fun x => x.id == dbA.nextId) =
        some n ∧
      n.pdfContent = some { data := envGenA.pdfBytes,
                            contentType := "application/pdf" } ∧
      downloadHandler
          ((generateHandler envGenA dbA 5 (some [artA]) "T" "java").2)
          dbA.nextId = HttpResp.okPdf envGenA.pdfBytes ∧
      ([9, 8, 7] : List Nat) = envGenA.pdfBytes) :=
  ⟨⟨by decide, rfl⟩,
    generate_download_roundtrip envGenA dbA 5 (some [artA]) "T" "java"
      [9, 8, 7] (by decide) rfl⟩

/-- C7: deleting a curated article that is owned by someone else answers 404
and leaves the database (in particular the article store) unchanged; only
the owner's delete succeeds. -/
theorem delete_article_owner_only (db : DB) (caller aid : Nat) :
    ((∀ a ∈ db.articles, a.id = aid → a.savedBy ≠ caller) →
      deleteArticleHandler db caller aid =
        (HttpResp.notFound
          "Article not found or you do not have permission to delete it.",
          db)) ∧
    (∀ a ∈ db.articles, a.id = aid → a.savedBy = caller →
      (deleteArticleHandler db caller aid).1 =
        HttpResp.ok "Article deleted successfully.") := by
  constructor
  · intro h
    have hnone : db.articles.find?
        (fun a => a.id == aid && a.savedBy == caller) = none := by
      rw [List.find?_eq_none]
      intro a ha hp
      simp only [Bool.and_eq_true, beq_iff_eq] at hp
      exact h a ha hp.1 hp.2
    unfold deleteArticleHandler
    rw [hnone]
  · intro a ha hid hsv
    have hsome : (db.articles.find?
        (fun a => a.id == aid && a.savedBy == caller)).isSome := by
      rw [List.find?_isSome]
      exact ⟨a, ha, by simp [hid, hsv]⟩
    unfold deleteArticleHandler
    cases hcase : db.articles.find?
        (fun a => a.id == aid && a.savedBy == caller) with
    | none => rw [hcase] at hsome; simp at hsome
    | some b => rfl

def artB : CuratedArticle := { id := 2, savedBy := 9, title := "B" }

def dbB : DB :=
  { newsletters := [], users := [], categories := [], articles := [artB],
    notifications := [], nextId := 0 }

/-- Witness for C7: user 5 cannot delete user 9's article 2 (404, store
unchanged); the owner 9 can. -/
theorem delete_article_owner_only_witness :
    (∀ a ∈ dbB.articles, a.id = 2 → a.savedBy ≠ 5) ∧
    deleteArticleHandler dbB 5 2 =
      (HttpResp.notFound
        "Article not found or you do not have permission to delete it.",
        dbB) ∧
    (deleteArticleHandler dbB 9 2).1 =
      HttpResp.ok "Article deleted successfully." :=
  ⟨by decide,
    (delete_article_owner_only dbB 5 2).1 (by decide),
    (delete_article_owner_only dbB 9 2).2 artB (by decide) (by decide)
      (by decide)⟩

/-- C8: `PATCH /newsletters/:id/status` writes any given status string
verbatim — neither a transition graph nor the schema's allowed-value list is
checked, because `findByIdAndUpdate` does not run update validators by
default — and answers 200 with the updated document. -/
theorem patch_status_verbatim (db : DB) (nid : Nat) (s : String)
    (n : Newsletter)
    (hfind : db.newsletters.find? (fun x => x.id == nid) = some n) :
    (patchStatusHandler db nid s).1 =
      HttpResp.okNewsletter { n with status := s } ∧
    ((patchStatusHandler db nid s).2).newsletters.find?
      (fun x => x.id == nid) = some { n with status := s } ∧
    ({ n with status := s } : Newsletter).status = s := by
  unfold patchStatusHandler
  rw [hfind]
  have hnid : n.id = nid := find?_newsletter_id _ _ _ hfind
  exact ⟨rfl, find?_update_eq _ _ _ hnid (by rw [hfind]; rfl), rfl⟩

/-- Witness for C8: the out-of-enum value "bogus" is written verbatim. -/
theorem patch_status_verbatim_witness :
    dbA.newsletters.find? (fun x => x.id == 0) = some nlA ∧
    ((patchStatusHandler dbA 0 "bogus").1 =
      HttpResp.okNewsletter { nlA with status := "bogus" } ∧
    ((patchStatusHandler dbA 0 "bogus").2).newsletters.find?
      (fun x => x.id == 0) = some { nlA with status := "bogus" } ∧
    ({ nlA with status := "bogus" } : Newsletter).status = "bogus") :=
  ⟨rfl, patch_status_verbatim dbA 0 "bogus" nlA rfl⟩

def catJ : Category := { id := 0, name := "java", admins := [] }

def adminU : User :=
  { id := 7, name := "Ada", email := "ada@example.com", userType := "admin",
    categories := ["java"] }

def dbC : DB :=
  { newsletters := [], users := [adminU], categories := [catJ],
    articles := [], notifications := [], nextId := 0 }

/-- C5 counterexample: the delete pulls the name only from users listed in
the category's `admins` array. An admin user who carries the category name
but is not listed there (reachable via `PATCH /users/me/categories`, which
does not touch `Category.admins`) keeps the name after the delete. -/
theorem delete_category_counterexample :
    (deleteCategoryHandler dbC 0).1 =
      HttpResp.ok "Category removed successfully." ∧
    ((deleteCategoryHandler dbC 0).2).categories = [] ∧
    ((deleteCategoryHandler dbC 0).2).users = [adminU] ∧
    adminU.userType = "admin" ∧
    "java" ∈ adminU.categories := by
  refine ⟨rfl, rfl, rfl, rfl, ?_⟩
  decide

/-- C5 (amended): deleting an existing category removes its name from the
categories list of every user listed in the category's `admins` array
(keeping their other categories), leaves every other user untouched,
deletes the Category record, and deletes no User record. -/
theorem delete_category_pulls_listed_admins (db : DB) (cid : Nat)
    (c : Category)
    (hfind : db.categories.find? (fun x => x.id == cid) = some c) :
    (deleteCategoryHandler db cid).1 =
      HttpResp.ok "Category removed successfully." ∧
    ((deleteCategoryHandler db cid).2).categories.find?
      (fun x => x.id == cid) = none ∧
    ((deleteCategoryHandler db cid).2).users.length = db.users.length ∧
    ((deleteCategoryHandler db cid).2).users.map (fun u => u.id) =
      db.users.map (fun u => u.id) ∧
    (∀ u ∈ db.users, c.admins.contains u.id = true →
      ∃ u', u' ∈ ((deleteCategoryHandler db cid).2).users ∧ u'.id = u.id ∧
        c.name ∉ u'.categories ∧
        (∀ s ∈ u.categories, s ≠ c.name → s ∈ u'.categories)) ∧
    (∀ u ∈ db.users, c.admins.contains u.id = false →
      u ∈ ((deleteCategoryHandler db cid).2).users) := by
  unfold deleteCategoryHandler
  rw [hfind]
  refine ⟨rfl, ?_, ?_, ?_, ?_, ?_⟩
  · rw [List.find?_eq_none]
    intro x hx
    have := (List.mem_filter.mp hx).2
    simp only [bne_iff_ne, ne_eq] at this
    simp [this]
  · exact List.length_map _ _
  · rw [List.map_map]
    apply List.map_congr_left
    intro u _
    by_cases hc : c.admins.contains u.id = true
    · simp only [Function.comp, if_pos hc]
    · simp only [Function.comp, if_neg hc]
  · intro u hu hc
    refine ⟨{ u with categories :=
        u.categories.filter (fun s => s != c.name) }, ?_, rfl, ?_, ?_⟩
    · refine List.mem_map.mpr ⟨u, hu, ?_⟩
      have hmm : u.id ∈ c.admins := by simpa using hc
      simp [hmm]
    · intro hnm
      have := (List.mem_filter.mp hnm).2
      simp at this
    · intro s hs hne
      exact List.mem_filter.mpr ⟨hs, by simpa using hne⟩
  · intro u hu hc
    refine List.mem_map.mpr ⟨u, hu, ?_⟩
    have hmm : u.id ∉ c.admins := by simpa using hc
    simp [hmm]

def catK : Category := { id := 1, name := "k8s", admins := [7] }

def adminV : User :=
  { id := 7, name := "Ada", email := "ada@example.com", userType := "admin",
    categories := ["k8s", "java"] }

def dbD : DB :=
  { newsletters := [], users := [adminV], categories := [catK],
    articles := [], notifications := [], nextId := 0 }

/-- Witness for the amended C5: deleting category "k8s" pulls its name from
the listed admin 7, keeps "java", and deletes no user. -/
theorem delete_category_pulls_listed_admins_witness :
    dbD.categories.find? (fun x => x.id == 1) = some catK ∧
    ((deleteCategoryHandler dbD 1).1 =
      HttpResp.ok "Category removed successfully." ∧
    ((deleteCategoryHandler dbD 1).2).categories.find?
      (fun x => x.id == 1) = none ∧
    ((deleteCategoryHandler dbD 1).2).users.length = dbD.users.length ∧
    ((deleteCategoryHandler dbD 1).2).users.map (fun u => u.id) =
      dbD.users.map (fun u => u.id) ∧
    (∀ u ∈ dbD.users, catK.admins.contains u.id = true →
      ∃ u', u' ∈ ((deleteCategoryHandler dbD 1).2).users ∧ u'.id = u.id ∧
        catK.name ∉ u'.categories ∧
        (∀ s ∈ u.categories, s ≠ catK.name → s ∈ u'.categories)) ∧
    (∀ u ∈ dbD.users, catK.admins.contains u.id = false →
      u ∈ ((deleteCategoryHandler dbD 1).2).users)) :=
  ⟨rfl, delete_category_pulls_listed_admins dbD 1 catK rfl⟩

/-- C10: every successful `POST /users/send-newsletter-to-self` adds the
caller's id (set semantics) to the newsletter's recipient list and creates
exactly one Notification for the caller, while the newsletter's status,
title, category, articles and pdfContent are left unchanged — in particular
the status does not become "sent". -/
theorem self_send_adds_caller_and_preserves_fields
    (env : SelfSendEnv) (db : DB) (caller nid : Nat) (m : String)
    (user : User) (n : Newsletter)
    (hu : db.users.find? (fun u => u.id == caller) = some user)
    (hn : db.newsletters.find? (fun x => x.id == nid) = some n)
    (hok : (selfSendHandler env db caller (some nid)).1 = HttpResp.ok m) :
    ∃ n', ((selfSendHandler env db caller (some nid)).2).newsletters.find?
        (fun x => x.id == nid) = some n' ∧
      n'.status = n.status ∧
      n'.title = n.title ∧
      n'.category = n.category ∧
      n'.articles = n.articles ∧
      n'.pdfContent = n.pdfContent ∧
      n'.recipients = addToSet n.recipients [caller] ∧
      caller ∈ n'.recipients ∧
      ((selfSendHandler env db caller (some nid)).2).notifications =
        db.notifications ++
          [{ user := caller, newsletter := n.id,
             message := "You sent the \"" ++ n.title ++
               "\" newsletter to your email.",
             isRead := false }] := by
  have huid : user.id = caller := by simpa using List.find?_some hu
  have hnid : n.id = nid := find?_newsletter_id _ _ _ hn
  by_cases hc1 : (!env.sendgridConfigured || !env.fromEmailConfigured) = true
  · rw [selfSendHandler, if_pos hc1] at hok
    exact absurd hok (by simp)
  rcases hpc : n.pdfContent with _ | pdf
  · simp only [selfSendHandler, if_neg hc1, hu, hn, hpc] at hok
    exact absurd hok (by simp)
  by_cases hes : (!env.emailSendOk) = true
  · simp only [selfSendHandler, if_neg hc1, hu, hn, hpc, if_pos hes] at hok
    exact absurd hok (by simp)
  by_cases hvs : (!(validStatuses.contains n.status)) = true
  · simp only [selfSendHandler, if_neg hc1, hu, hn, hpc, if_neg hes,
      if_pos hvs] at hok
    exact absurd hok (by simp)
  by_cases hns : (!env.notifSaveOk) = true
  · simp only [selfSendHandler, if_neg hc1, hu, hn, hpc, if_neg hes,
      if_neg hvs, if_pos hns] at hok
    exact absurd hok (by simp)
  simp only [selfSendHandler, if_neg hc1, hu, hn, hpc, if_neg hes,
    if_neg hvs, if_neg hns]
  refine ⟨{ n with recipients := addToSet n.recipients [user.id] },
    ?_, rfl, rfl, rfl, rfl, hpc, ?_, ?_, ?_⟩
  · exact find?_update_eq _ _ _ hnid (by rw [hn]; rfl)
  · rw [huid]
  · exact (mem_addToSet _ _ _).mpr (Or.inr (by simp [huid]))
  · simp [selfSendSuccessDB, huid]

def envSelfA : SelfSendEnv :=
  { sendgridConfigured := true, fromEmailConfigured := true,
    emailSendOk := true, notifSaveOk := true }

/-- Witness for C10: user 5 sends newsletter 0 to themselves. -/
theorem self_send_adds_caller_and_preserves_fields_witness :
    (dbA.users.find? (fun u => u.id == 5) = some userA ∧
      dbA.newsletters.find? (fun x => x.id == 0) = some nlA ∧
      (selfSendHandler envSelfA dbA 5 (some 0)).1 =
        HttpResp.ok "Newsletter successfully sent to uma@example.com.") ∧
    (∃ n', ((selfSendHandler envSelfA dbA 5 (some 0)).2).newsletters.find?
        (fun x => x.id == 0) = some n' ∧
      n'.status = nlA.status ∧
      n'.title = nlA.title ∧
      n'.category = nlA.category ∧
      n'.articles = nlA.articles ∧
      n'.pdfContent = nlA.pdfContent ∧
      n'.recipients = addToSet nlA.recipients [5] ∧
      5 ∈ n'.recipients ∧
      ((selfSendHandler envSelfA dbA 5 (some 0)).2).notifications =
        dbA.notifications ++
          [{ user := 5, newsletter := nlA.id,
             message := "You sent the \"" ++ nlA.title ++
               "\" newsletter to your email.",
             isRead := false }]) :=
  ⟨⟨rfl, rfl, rfl⟩,
    self_send_adds_caller_and_preserves_fields envSelfA dbA 5 0
      "Newsletter successfully sent to uma@example.com." userA nlA rfl rfl
      rfl⟩

end VSNews
